import Mathlib

/-!
Verification of the resume-builder backend (`backend/app`): a shallow
embedding of the prompt builder, AI provider selection, AI response
normalizer, filename sanitizer, markdown-fence cleanup, HTML renderer
bullet derivation and the generate-resume endpoint, together with theorems
settling the specification claims about them.

All definitions are translated from the Python source.  Python strings are
modelled as Lean `String` / `List Char`; Python `dict` values parsed from
JSON are modelled as structures with `Option` fields (a `none` field models
a missing key); exceptions are modelled with `Except String`.
-/

/- ================================================================
   Data model (backend/app/schemas.py and backend/app/models.py)
   ================================================================ -/

/-- `PersonalInfo` / `PersonalInfoModel`: personal information section. -/
structure PersonalInfo where
  full_name : String
  email : String
  phone : String
  location : String
  linkedin : Option String := none
  portfolio : Option String := none
deriving DecidableEq

/-- `ExperienceItem` (request schema): work experience entry; the request
schema carries no achievements field. -/
structure ExperienceItem where
  company : String
  role : String
  start_date : String
  end_date : String
  responsibilities : String
deriving DecidableEq

/-- `EducationItem` (request schema): education entry. -/
structure EducationItem where
  degree : String
  institution : String
  year : String
deriving DecidableEq

/-- `ResumeRequest`: the complete resume generation request. -/
structure ResumeRequest where
  personal_info : PersonalInfo
  summary : String
  skills : List String
  experience : List ExperienceItem
  education : List EducationItem
  job_description : String := ""
  template : String := "modern"
deriving DecidableEq

/-- `ExperienceModel` (internal model): experience entry carrying an
achievements list. -/
structure ExperienceModel where
  company : String
  role : String
  start_date : String
  end_date : String
  responsibilities : String
  achievements : List String := []
deriving DecidableEq

/-- `EducationModel` (internal model). -/
structure EducationModel where
  degree : String
  institution : String
  year : String
deriving DecidableEq

/-- `OptimizedResumeData`: the canonical optimized-resume structure produced
by `AIService._parse_ai_response`. -/
structure OptimizedResumeData where
  summary : String
  experience : List ExperienceModel
  education : List EducationModel
  skills : List String
  ats_keywords : List String := []
deriving DecidableEq

/- ================================================================
   AI response normalizer (ai_service.py, AIService._parse_ai_response)
   ================================================================ -/

/-- One entry of the `optimized_experience` array of the parsed AI-response
dictionary.  `none` models a missing key (Python `dict.get` with default). -/
structure ExpJson where
  company : Option String := none
  role : Option String := none
  start_date : Option String := none
  end_date : Option String := none
  responsibilities : Option String := none
  achievements : Option (List String) := none
deriving DecidableEq

/-- One entry of the `optimized_education` array of the parsed AI-response
dictionary. -/
structure EduJson where
  degree : Option String := none
  institution : Option String := none
  year : Option String := none
deriving DecidableEq

/-- The parsed AI-response dictionary (`response_data` in
`AIService._parse_ai_response`).  A `none` field models a missing key. -/
structure AIResponseJson where
  optimized_summary : Option String := none
  optimized_experience : Option (List ExpJson) := none
  optimized_education : Option (List EduJson) := none
  optimized_skills : Option (List String) := none
  ats_keywords : Option (List String) := none
deriving DecidableEq

/-- `AIService._parse_ai_response` (ai_service.py lines 395-484): maps the
parsed AI response onto `OptimizedResumeData`, falling back to the original
request per field.  `response.optimized_experience.getD []` models
`response_data.get("optimized_experience", [])`, and the `isEmpty` test
models Python's falsiness test `if not ai_experience`. -/
def parse_ai_response (response : AIResponseJson) (original : ResumeRequest) :
    OptimizedResumeData :=
  let optimized_summary := response.optimized_summary.getD original.summary
  let ai_experience := response.optimized_experience.getD []
  let optimized_experience :=
    if ai_experience.isEmpty then
      original.experience.map (fun exp =>
        { company := exp.company
          role := exp.role
          start_date := exp.start_date
          end_date := exp.end_date
          responsibilities := exp.responsibilities
          achievements := [] })
    else
      ai_experience.map (fun exp_data =>
        { company := exp_data.company.getD ""
          role := exp_data.role.getD ""
          start_date := exp_data.start_date.getD ""
          end_date := exp_data.end_date.getD ""
          responsibilities := exp_data.responsibilities.getD ""
          achievements := exp_data.achievements.getD [] })
  let ai_education := response.optimized_education.getD []
  let optimized_education :=
    if ai_education.isEmpty then
      original.education.map (fun edu =>
        { degree := edu.degree
          institution := edu.institution
          year := edu.year })
    else
      ai_education.map (fun edu_data =>
        { degree := edu_data.degree.getD ""
          institution := edu_data.institution.getD ""
          year := edu_data.year.getD "" })
  { summary := optimized_summary
    experience := optimized_experience
    education := optimized_education
    skills := response.optimized_skills.getD original.skills
    ats_keywords := response.ats_keywords.getD [] }

/- ================================================================
   Provider selection (ai_service.py, AIService.__init__ and the
   dispatch at the top of AIService.optimize_resume)
   ================================================================ -/

/-- The three LLM providers the service can call. -/
inductive Provider where
  | openai
  | claude
  | gemini
deriving DecidableEq

/-- Environment-sourced credential configuration (config.py); an empty
string models an unset key, matching Python truthiness tests. -/
structure AIConfig where
  openai_api_key : String
  anthropic_api_key : String
  gemini_api_key : String
deriving DecidableEq

/-- The state of an `AIService` instance after `__init__`. -/
structure AIServiceState where
  use_claude : Bool
  use_gemini : Bool
  openai_api_key : String
  anthropic_api_key : String
  gemini_api_key : String
deriving DecidableEq

/-- Error message raised by `AIService.__init__` when no key is configured. -/
def noKeyConfiguredMsg : String :=
  "No API key configured. Set OPENAI_API_KEY, ANTHROPIC_API_KEY, or GEMINI_API_KEY in .env"

/-- Error message raised by `AIService.optimize_resume` when no selection
branch applies. -/
def noValidKeyMsg : String :=
  "No valid API key available for the selected service"

/-- `AIService.__init__` (ai_service.py lines 37-61): stores the caller's
explicit provider flags, auto-detects a provider by key presence (priority
Gemini then Claude) only when neither flag is set, and raises when no key
at all is configured. -/
def ai_service_init (use_claude use_gemini : Bool) (cfg : AIConfig) :
    Except String AIServiceState :=
  let s0 : AIServiceState :=
    { use_claude := use_claude
      use_gemini := use_gemini
      openai_api_key := cfg.openai_api_key
      anthropic_api_key := cfg.anthropic_api_key
      gemini_api_key := cfg.gemini_api_key }
  let s1 :=
    if !use_claude && !use_gemini then
      if cfg.gemini_api_key ≠ "" then { s0 with use_gemini := true }
      else if cfg.anthropic_api_key ≠ "" then { s0 with use_claude := true }
      else s0
    else s0
  if cfg.openai_api_key = "" ∧ cfg.anthropic_api_key = "" ∧ cfg.gemini_api_key = "" then
    Except.error noKeyConfiguredMsg
  else
    Except.ok s1

/-- The provider dispatch at the top of `AIService.optimize_resume`
(ai_service.py lines 83-90). -/
def optimize_resume_select (s : AIServiceState) : Except String Provider :=
  if s.use_gemini && s.gemini_api_key ≠ "" then Except.ok Provider.gemini
  else if s.use_claude && s.anthropic_api_key ≠ "" then Except.ok Provider.claude
  else if s.openai_api_key ≠ "" then Except.ok Provider.openai
  else Except.error noValidKeyMsg

/-- Construction followed by provider dispatch: the provider actually used
for a request given the caller's flags and the configuration. -/
def init_and_select (use_claude use_gemini : Bool) (cfg : AIConfig) :
    Except String Provider :=
  (ai_service_init use_claude use_gemini cfg).bind optimize_resume_select

/- ================================================================
   C1: fallback normalization preserves the original lists
   ================================================================ -/

/-- C1: whenever `optimized_experience` is missing or the empty list, the
normalizer returns one experience entry per original entry, same order,
fields copied, achievements empty; likewise for `optimized_education`. -/
theorem c1_parse_fallback_preserves_lists
    (response : AIResponseJson) (original : ResumeRequest) :
    ((response.optimized_experience = none ∨ response.optimized_experience = some []) →
      (parse_ai_response response original).experience =
        original.experience.map (fun exp =>
          { company := exp.company
            role := exp.role
            start_date := exp.start_date
            end_date := exp.end_date
            responsibilities := exp.responsibilities
            achievements := [] })) ∧
    ((response.optimized_education = none ∨ response.optimized_education = some []) →
      (parse_ai_response response original).education =
        original.education.map (fun edu =>
          { degree := edu.degree
            institution := edu.institution
            year := edu.year })) := by
  constructor
  · rintro (h | h) <;> simp [parse_ai_response, h]
  · rintro (h | h) <;> simp [parse_ai_response, h]

/-- Witness for C1 at the spec's own test vector: a response carrying only
`optimized_summary` and an original request with two experience entries and
one education entry. -/
theorem c1_witness :
    (({ optimized_summary := some "X" } : AIResponseJson).optimized_experience = none ∨
      ({ optimized_summary := some "X" } : AIResponseJson).optimized_experience = some []) ∧
    (parse_ai_response { optimized_summary := some "X" }
        { personal_info := { full_name := "A", email := "a@b.c", phone := "1", location := "L" }
          summary := "S"
          skills := ["s1"]
          experience :=
            [{ company := "C1", role := "R1", start_date := "2020", end_date := "2021",
               responsibilities := "r1" },
             { company := "C2", role := "R2", start_date := "2021", end_date := "2022",
               responsibilities := "r2" }]
          education := [{ degree := "BS", institution := "U", year := "2019" }] }).experience =
      [{ company := "C1", role := "R1", start_date := "2020", end_date := "2021",
         responsibilities := "r1", achievements := [] },
       { company := "C2", role := "R2", start_date := "2021", end_date := "2022",
         responsibilities := "r2", achievements := [] }] :=
  ⟨Or.inl rfl,
    by
      have h := c1_parse_fallback_preserves_lists { optimized_summary := some "X" }
        { personal_info := { full_name := "A", email := "a@b.c", phone := "1", location := "L" }
          summary := "S"
          skills := ["s1"]
          experience :=
            [{ company := "C1", role := "R1", start_date := "2020", end_date := "2021",
               responsibilities := "r1" },
             { company := "C2", role := "R2", start_date := "2021", end_date := "2022",
               responsibilities := "r2" }]
          education := [{ degree := "BS", institution := "U", year := "2019" }] }
      exact h.1 (Or.inl rfl)⟩

/- ================================================================
   C2: provider selection policy (corrected)
   ================================================================ -/

/-- C2 counterexample: the caller explicitly requests Claude, the Claude
credential is absent, and only a Gemini credential is configured.  The
claimed policy ("otherwise auto-select by credential presence in priority
order Gemini > Anthropic > OpenAI") predicts that Gemini is used; the code
instead raises the call-time error, because the auto-detection in
`__init__` is skipped as soon as any flag is explicitly set and the
dispatch in `optimize_resume` only ever falls through to OpenAI. -/
theorem c2_counterexample :
    init_and_select true false
        { openai_api_key := "", anthropic_api_key := "", gemini_api_key := "gk" } =
      Except.error noValidKeyMsg ∧
    init_and_select true false
        { openai_api_key := "", anthropic_api_key := "", gemini_api_key := "gk" } ≠
      Except.ok Provider.gemini := by
  constructor
  · rfl
  · intro h
    simp [init_and_select, ai_service_init, optimize_resume_select, Except.bind] at h

/-- C2 amended: if the caller explicitly requests a provider and its
credential is present, that provider is used; if neither provider flag is
set, the provider is auto-selected by credential presence in priority order
Gemini > Anthropic > OpenAI; if an explicitly requested provider's
credential is absent, the call does not re-run the auto-selection but falls
back to OpenAI when its credential is present and otherwise fails with a
call-time error; construction fails with the configuration error exactly
when no credential is present for any provider. -/
theorem c2_amended (cfg : AIConfig) (uc ug : Bool) :
    (cfg.openai_api_key = "" ∧ cfg.anthropic_api_key = "" ∧ cfg.gemini_api_key = "" →
      init_and_select uc ug cfg = Except.error noKeyConfiguredMsg) ∧
    (ug = true → cfg.gemini_api_key ≠ "" →
      init_and_select uc ug cfg = Except.ok Provider.gemini) ∧
    (uc = true → ug = false → cfg.anthropic_api_key ≠ "" →
      init_and_select uc ug cfg = Except.ok Provider.claude) ∧
    (uc = false → ug = false →
      ¬(cfg.openai_api_key = "" ∧ cfg.anthropic_api_key = "" ∧ cfg.gemini_api_key = "") →
      init_and_select uc ug cfg =
        (if cfg.gemini_api_key ≠ "" then Except.ok Provider.gemini
         else if cfg.anthropic_api_key ≠ "" then Except.ok Provider.claude
         else Except.ok Provider.openai)) ∧
    ((uc = true ∨ ug = true) → ¬(ug = true ∧ cfg.gemini_api_key ≠ "") →
      ¬(uc = true ∧ cfg.anthropic_api_key ≠ "") → cfg.openai_api_key ≠ "" →
      init_and_select uc ug cfg = Except.ok Provider.openai) ∧
    ((uc = true ∨ ug = true) → ¬(ug = true ∧ cfg.gemini_api_key ≠ "") →
      ¬(uc = true ∧ cfg.anthropic_api_key ≠ "") → cfg.openai_api_key = "" →
      ¬(cfg.anthropic_api_key = "" ∧ cfg.gemini_api_key = "") →
      init_and_select uc ug cfg = Except.error noValidKeyMsg) := by
  obtain ⟨ok, ak, gk⟩ := cfg
  refine ⟨?_, ?_, ?_, ?_, ?_, ?_⟩
  · rintro ⟨h1, h2, h3⟩
    subst h1; subst h2; subst h3
    cases uc <;> cases ug <;> rfl
  · rintro rfl hg
    cases uc <;>
      simp [init_and_select, ai_service_init, optimize_resume_select, Except.bind, hg]
  · rintro rfl rfl ha
    by_cases ho : ok = "" <;> by_cases hg : gk = "" <;>
      simp_all [init_and_select, ai_service_init, optimize_resume_select, Except.bind]
  · rintro rfl rfl hne
    by_cases ho : ok = "" <;> by_cases ha : ak = "" <;> by_cases hg : gk = "" <;>
      simp_all [init_and_select, ai_service_init, optimize_resume_select, Except.bind]
  · intro hexp hng hnc ho
    cases uc <;> cases ug <;>
      by_cases ha : ak = "" <;> by_cases hg : gk = "" <;>
      simp_all [init_and_select, ai_service_init, optimize_resume_select, Except.bind]
  · intro hexp hng hnc ho hne
    cases uc <;> cases ug <;>
      by_cases ha : ak = "" <;> by_cases hg : gk = "" <;>
      simp_all [init_and_select, ai_service_init, optimize_resume_select, Except.bind]

/-- Witness for C2 amended: a configuration with only a Gemini credential
and no explicit preference selects Gemini; a configuration with only an
OpenAI credential and an explicit Claude request falls back to OpenAI. -/
theorem c2_amended_witness :
    init_and_select false false
        { openai_api_key := "", anthropic_api_key := "", gemini_api_key := "gk" } =
      Except.ok Provider.gemini ∧
    init_and_select true false
        { openai_api_key := "ok", anthropic_api_key := "", gemini_api_key := "" } =
      Except.ok Provider.openai := by
  constructor
  · have h := (c2_amended
      { openai_api_key := "", anthropic_api_key := "", gemini_api_key := "gk" }
      false false).2.2.2.1 rfl rfl (by simp)
    simpa using h
  · exact (c2_amended
      { openai_api_key := "ok", anthropic_api_key := "", gemini_api_key := "" }
      true false).2.2.2.2.1 (Or.inl rfl) (by simp) (by simp) (by simp)

/- ================================================================
   C10: explicit request with absent credential falls through to OpenAI
   ================================================================ -/

/-- C10: an explicit Gemini (or Claude) request whose credential is absent
silently falls through to the OpenAI branch when an OpenAI credential is
present, and the call-time "No valid API key available" error occurs
exactly when no dispatch branch has a usable credential. -/
theorem c10_fallthrough_to_openai (cfg : AIConfig) :
    (cfg.gemini_api_key = "" → cfg.openai_api_key ≠ "" →
      init_and_select false true cfg = Except.ok Provider.openai) ∧
    (cfg.anthropic_api_key = "" → cfg.openai_api_key ≠ "" →
      init_and_select true false cfg = Except.ok Provider.openai) ∧
    (∀ s : AIServiceState,
      optimize_resume_select s = Except.error noValidKeyMsg ↔
        ¬(s.use_gemini = true ∧ s.gemini_api_key ≠ "") ∧
        ¬(s.use_claude = true ∧ s.anthropic_api_key ≠ "") ∧
        s.openai_api_key = "") := by
  obtain ⟨ok, ak, gk⟩ := cfg
  refine ⟨?_, ?_, ?_⟩
  · rintro rfl ho
    simp_all [init_and_select, ai_service_init, optimize_resume_select, Except.bind]
  · rintro rfl ho
    by_cases hg : gk = "" <;>
      simp_all [init_and_select, ai_service_init, optimize_resume_select, Except.bind]
  · intro s
    unfold optimize_resume_select
    split_ifs with h1 h2 h3 <;> simp_all [noValidKeyMsg]

/-- Witness for C10: with only an OpenAI credential configured, an explicit
Gemini request is served by OpenAI. -/
theorem c10_witness :
    init_and_select false true
        { openai_api_key := "ok", anthropic_api_key := "", gemini_api_key := "" } =
      Except.ok Provider.openai :=
  (c10_fallthrough_to_openai
    { openai_api_key := "ok", anthropic_api_key := "", gemini_api_key := "" }).1
    rfl (by simp)

/- ================================================================
   Filename sanitizer (pdf_service.py, PDFService._sanitize_filename)
   ================================================================ -/

/-- ASCII lower-casing of a single character, modelling Python `str.lower`
on the ASCII range (the only range exercised by this code base). -/
def asciiLower (c : Char) : Char :=
  match c with
  | 'A' => 'a' | 'B' => 'b' | 'C' => 'c' | 'D' => 'd' | 'E' => 'e' | 'F' => 'f'
  | 'G' => 'g' | 'H' => 'h' | 'I' => 'i' | 'J' => 'j' | 'K' => 'k' | 'L' => 'l'
  | 'M' => 'm' | 'N' => 'n' | 'O' => 'o' | 'P' => 'p' | 'Q' => 'q' | 'R' => 'r'
  | 'S' => 's' | 'T' => 't' | 'U' => 'u' | 'V' => 'v' | 'W' => 'w' | 'X' => 'x'
  | 'Y' => 'y' | 'Z' => 'z'
  | c => c

/-- The fixed set of filesystem-unsafe characters replaced by
`_sanitize_filename` (pdf_service.py line 200). -/
def invalidFilenameChars : List Char := ['<', '>', ':', '"', '/', '\\', '|', '?', '*']

/-- The sequential `sanitized.replace(char, "_")` loop over
`invalid_chars`: since every target is a single character and `_` is not in
the set, the loop is a character map. -/
def replaceInvalidChars (cs : List Char) : List Char :=
  cs.map (fun c => if c ∈ invalidFilenameChars then '_' else c)

/-- `sanitized.replace(" ", "_")`. -/
def replaceSpaces (cs : List Char) : List Char :=
  cs.map (fun c => if c = ' ' then '_' else c)

/-- One pass per fuel unit of the `while "__" in sanitized:
sanitized = sanitized.replace("__", "_")` loop: each step either drops the
first of two adjacent underscores or emits the head character, so the net
effect (reached because the loop runs until no `__` remains) collapses
every maximal run of underscores to a single one.  Fuel `cs.length`
suffices because every step consumes one character. -/
def collapseUnderscoresAux : Nat → List Char → List Char
  | 0, cs => cs
  | _ + 1, [] => []
  | fuel + 1, c :: rest =>
    if c = '_' ∧ rest.head? = some '_' then collapseUnderscoresAux fuel rest
    else c :: collapseUnderscoresAux fuel rest

/-- Net effect of the underscore-collapsing `while` loop. -/
def collapseUnderscores (cs : List Char) : List Char :=
  collapseUnderscoresAux cs.length cs

/-- Left half of Python `strip("_")`. -/
def lstripUnderscores (cs : List Char) : List Char :=
  cs.dropWhile (fun c => c = '_')

/-- Right half of Python `strip("_")`. -/
def rstripUnderscores : List Char → List Char
  | [] => []
  | c :: rest =>
    match rstripUnderscores rest with
    | [] => if c = '_' then [] else [c]
    | r => c :: r

/-- The pure character pipeline of `PDFService._sanitize_filename`
(pdf_service.py lines 190-216) before the empty-result fallback: replace
invalid characters, replace spaces, collapse repeated underscores, strip
leading/trailing underscores, lower-case. -/
def sanitize_core (filename : List Char) : List Char :=
  (rstripUnderscores (lstripUnderscores
    (collapseUnderscores (replaceSpaces (replaceInvalidChars filename))))).map asciiLower

/-- `PDFService._sanitize_filename`: the random token `str(uuid.uuid4())[:8]`
used when the sanitized result is empty is modelled as the explicit
parameter `fallbackToken`. -/
def sanitize_filename (fallbackToken : String) (filename : String) : String :=
  let sanitized := sanitize_core filename.data
  if sanitized.isEmpty then fallbackToken else String.mk sanitized

/-- The character class asserted by claim C3 for sanitizer output:
lowercase ASCII letters, digits, underscore. -/
def lowerDigitUnderscoreOnly (s : String) : Bool :=
  s.data.all (fun c => ('a' ≤ c && c ≤ 'z') || ('0' ≤ c && c ≤ '9') || c == '_')

/-- `true` when the character list contains no two adjacent underscores. -/
def noDoubleUnderscore : List Char → Bool
  | [] => true
  | [_] => true
  | a :: b :: rest => !(a == '_' && b == '_') && noDoubleUnderscore (b :: rest)

/-- Characterization of `noDoubleUnderscore` on a cons cell. -/
theorem noDoubleUnderscore_cons (c : Char) (l : List Char) :
    noDoubleUnderscore (c :: l) = true ↔
      (noDoubleUnderscore l = true ∧ ¬(c = '_' ∧ l.head? = some '_')) := by
  cases l with
  | nil => simp [noDoubleUnderscore]
  | cons b rest =>
    simp only [noDoubleUnderscore, Bool.and_eq_true, Bool.not_eq_true',
      Bool.and_eq_false_iff, List.head?_cons, Option.some.injEq, beq_eq_false_iff_ne,
      ne_eq]
    constructor
    · rintro ⟨h1, h2⟩
      refine ⟨h2, ?_⟩
      rintro ⟨rfl, rfl⟩
      rcases h1 with h | h <;> exact h rfl
    · rintro ⟨h1, h2⟩
      refine ⟨?_, h1⟩
      by_cases hc : c = '_'
      · right; intro hb; exact h2 ⟨hc, hb ▸ rfl⟩
      · left; exact hc

/-- `collapseUnderscoresAux` leaves the empty list empty. -/
theorem collapseUnderscoresAux_nil (fuel : Nat) :
    collapseUnderscoresAux fuel [] = [] := by
  cases fuel <;> rfl

/-- `collapseUnderscoresAux` preserves the head character. -/
theorem head?_collapseUnderscoresAux (fuel : Nat) (cs : List Char) :
    (collapseUnderscoresAux fuel cs).head? = cs.head? := by
  induction fuel generalizing cs with
  | zero => rfl
  | succ fuel ih =>
    cases cs with
    | nil => rfl
    | cons c rest =>
      by_cases h : c = '_' ∧ rest.head? = some '_'
      · obtain ⟨hc, hh⟩ := h
        subst hc
        simp [collapseUnderscoresAux, hh, ih]
      · simp [collapseUnderscoresAux, if_neg h]

/-- The collapsed list contains no two adjacent underscores. -/
theorem noDoubleUnderscore_collapseAux (fuel : Nat) (cs : List Char)
    (hlen : cs.length ≤ fuel) :
    noDoubleUnderscore (collapseUnderscoresAux fuel cs) = true := by
  induction fuel generalizing cs with
  | zero =>
    have : cs = [] := List.length_eq_zero.mp (Nat.le_zero.mp hlen)
    subst this; rfl
  | succ fuel ih =>
    cases cs with
    | nil => rfl
    | cons c rest =>
      simp only [List.length_cons, Nat.add_le_add_iff_right] at hlen
      by_cases h : c = '_' ∧ rest.head? = some '_'
      · simpa only [collapseUnderscoresAux, if_pos h] using ih rest hlen
      · simp only [collapseUnderscoresAux, if_neg h]
        rw [noDoubleUnderscore_cons]
        refine ⟨ih rest hlen, ?_⟩
        rw [head?_collapseUnderscoresAux]
        exact h

/-- Removing a suffix preserves absence of doubled underscores. -/
theorem noDoubleUnderscore_append_left (l t : List Char)
    (h : noDoubleUnderscore (l ++ t) = true) : noDoubleUnderscore l = true := by
  induction l with
  | nil => rfl
  | cons c l' ih =>
    rw [List.cons_append, noDoubleUnderscore_cons] at h
    rw [noDoubleUnderscore_cons]
    refine ⟨ih h.1, ?_⟩
    rintro ⟨rfl, hhd⟩
    apply h.2
    refine ⟨rfl, ?_⟩
    cases l' with
    | nil => simp at hhd
    | cons a l'' => simpa using hhd

/-- Removing a prefix preserves absence of doubled underscores. -/
theorem noDoubleUnderscore_append_right (t l : List Char)
    (h : noDoubleUnderscore (t ++ l) = true) : noDoubleUnderscore l = true := by
  induction t with
  | nil => exact h
  | cons c t' ih =>
    rw [List.cons_append, noDoubleUnderscore_cons] at h
    exact ih h.1

/-- `rstripUnderscores` returns a prefix of its input. -/
theorem rstripUnderscores_prefix (cs : List Char) :
    ∃ t, rstripUnderscores cs ++ t = cs := by
  induction cs with
  | nil => exact ⟨[], rfl⟩
  | cons c rest ih =>
    obtain ⟨t, ht⟩ := ih
    cases hr : rstripUnderscores rest with
    | nil =>
      by_cases hc : c = '_'
      · exact ⟨c :: rest, by simp [rstripUnderscores, hr, hc]⟩
      · refine ⟨rest, ?_⟩
        simp [rstripUnderscores, hr, hc]
    | cons x xs =>
      refine ⟨t, ?_⟩
      rw [hr] at ht
      simp [rstripUnderscores, hr, ht]

/-- `asciiLower` maps only the underscore to the underscore. -/
theorem asciiLower_eq_underscore (c : Char) (h : asciiLower c = '_') : c = '_' := by
  unfold asciiLower at h
  split at h <;> first | assumption | exact absurd h (by decide)

/-- Lower-casing preserves absence of doubled underscores. -/
theorem noDoubleUnderscore_map_lower (cs : List Char)
    (h : noDoubleUnderscore cs = true) :
    noDoubleUnderscore (cs.map asciiLower) = true := by
  induction cs with
  | nil => rfl
  | cons c l ih =>
    rw [noDoubleUnderscore_cons] at h
    rw [List.map_cons, noDoubleUnderscore_cons]
    refine ⟨ih h.1, ?_⟩
    rintro ⟨hc, hhd⟩
    apply h.2
    refine ⟨asciiLower_eq_underscore c hc, ?_⟩
    cases l with
    | nil => simp at hhd
    | cons a l' =>
      simp only [List.map_cons, List.head?_cons, Option.some.injEq] at hhd ⊢
      exact asciiLower_eq_underscore a hhd ▸ rfl

/-- The core sanitizer output never contains doubled underscores. -/
theorem noDoubleUnderscore_sanitize_core (cs : List Char) :
    noDoubleUnderscore (sanitize_core cs) = true := by
  unfold sanitize_core
  apply noDoubleUnderscore_map_lower
  obtain ⟨t, ht⟩ := rstripUnderscores_prefix
    (lstripUnderscores (collapseUnderscores (replaceSpaces (replaceInvalidChars cs))))
  apply noDoubleUnderscore_append_left _ t
  rw [ht]
  unfold lstripUnderscores
  have hsplit := List.takeWhile_append_dropWhile (p := fun c => decide (c = '_'))
    (l := collapseUnderscores (replaceSpaces (replaceInvalidChars cs)))
  apply noDoubleUnderscore_append_right
    ((collapseUnderscores (replaceSpaces (replaceInvalidChars cs))).takeWhile
      (fun c => decide (c = '_')))
  rw [hsplit]
  exact noDoubleUnderscore_collapseAux _ _ (Nat.le_refl _)

/- ================================================================
   C3: filename sanitizer (corrected)
   ================================================================ -/

/-- C3 counterexample: on `"John  O'Brien!!"` the sanitizer yields
`"john_o'brien!!"`, which is not made of lowercase letters, digits and
underscore only: the apostrophe and the exclamation marks are not in the
fixed replaced set `<>:"/\|?*` and survive, so the claimed character-class
property fails on this very input. -/
theorem c3_counterexample :
    sanitize_filename "abcd1234" "John  O'Brien!!" = "john_o'brien!!" ∧
    lowerDigitUnderscoreOnly (sanitize_filename "abcd1234" "John  O'Brien!!") = false := by
  constructor <;> decide

/-- C3 amended: on `"John  O'Brien!!"` the sanitizer yields the non-empty
string `"john_o'brien!!"` — lower-cased, spaces collapsed to a single
underscore, no doubled underscores — but characters outside the fixed
replaced set (apostrophe, exclamation marks) survive.  In general the
sanitizer replaces the fixed unsafe set and spaces with underscore,
collapses repeated underscores, trims leading/trailing underscores,
lower-cases, never produces doubled underscores, and falls back to the
random token exactly when the sanitized result is empty. -/
theorem c3_amended (tok s : String) :
    sanitize_filename tok "John  O'Brien!!" = "john_o'brien!!" ∧
    (sanitize_core s.data ≠ [] →
      sanitize_filename tok s = String.mk (sanitize_core s.data) ∧
      noDoubleUnderscore (sanitize_filename tok s).data = true) ∧
    (sanitize_core s.data = [] → sanitize_filename tok s = tok) ∧
    (tok ≠ "" → sanitize_filename tok s ≠ "") := by
  refine ⟨?_, ?_, ?_, ?_⟩
  · show sanitize_filename tok "John  O'Brien!!" = "john_o'brien!!"
    unfold sanitize_filename
    norm_num [show sanitize_core "John  O'Brien!!".data = "john_o'brien!!".data from by decide]
  · intro hne
    have hif : sanitize_filename tok s = String.mk (sanitize_core s.data) := by
      unfold sanitize_filename
      simp [List.isEmpty_iff, hne]
    refine ⟨hif, ?_⟩
    rw [hif]
    exact noDoubleUnderscore_sanitize_core s.data
  · intro hempty
    unfold sanitize_filename
    simp [List.isEmpty_iff, hempty]
  · intro htok
    by_cases hc : sanitize_core s.data = []
    · unfold sanitize_filename
      simp [List.isEmpty_iff, hc, htok]
    · unfold sanitize_filename
      simp only [List.isEmpty_iff, if_neg hc]
      intro hmk
      apply hc
      have : (String.mk (sanitize_core s.data)).data = ("" : String).data := by rw [hmk]
      simpa using this

/-- Witness for C3 amended at concrete inputs: non-fallback result for a
name with doubled spaces, fallback for an all-underscore name, and
non-emptiness. -/
theorem c3_amended_witness :
    sanitize_filename "ab12cd34" "John  O'Brien!!" = "john_o'brien!!" ∧
    (sanitize_filename "ab12cd34" "Neel  Kapoor" = String.mk (sanitize_core "Neel  Kapoor".data) ∧
      noDoubleUnderscore (sanitize_filename "ab12cd34" "Neel  Kapoor").data = true) ∧
    sanitize_filename "ab12cd34" "___" = "ab12cd34" ∧
    sanitize_filename "ab12cd34" "" ≠ "" := by
  refine ⟨(c3_amended "ab12cd34" "x").1, ?_, ?_, ?_⟩
  · exact (c3_amended "ab12cd34" "Neel  Kapoor").2.1 (by decide)
  · exact (c3_amended "ab12cd34" "___").2.2.1 (by decide)
  · exact (c3_amended "ab12cd34" "").2.2.2 (by decide)

/- ================================================================
   Experience bullet derivation
   (resume_builder.py, ResumeBuilder._build_experience_section lines
   281-311 and ResumeBuilder._build_experience_section_from_request
   lines 360-379; both loops are textually identical up to the
   achievements insertion, which only the former performs)
   ================================================================ -/

/-- Python `str.strip()` whitespace, ASCII range (`\s` of `re` likewise). -/
def isPySpace (c : Char) : Bool :=
  c == ' ' || c == '\t' || c == '\n' || c == '\r' || c == '\x0b' || c == '\x0c'

/-- Python `str.strip()` on a character list. -/
def pyStripChars (cs : List Char) : List Char :=
  ((cs.dropWhile isPySpace).reverse.dropWhile isPySpace).reverse

/-- Python `split("\n")`: split on every newline, keeping empty pieces. -/
def splitLines : List Char → List (List Char)
  | [] => [[]]
  | c :: rest =>
    if c = '\n' then [] :: splitLines rest
    else
      match splitLines rest with
      | l :: ls => (c :: l) :: ls
      | [] => [[c]]

/-- `line.startswith(("•", "-"))`. -/
def startsWithMarker : List Char → Bool
  | [] => false
  | c :: _ => c == '•' || c == '-'

/-- `line.endswith(":")`. -/
def endsWithColon (cs : List Char) : Bool :=
  match cs.getLast? with
  | some c => c == ':'
  | none => false

/-- Membership test for a character (Python `"•" in responsibilities`). -/
def containsChar (c : Char) (cs : List Char) : Bool :=
  cs.contains c

/-- The body of the per-line loop (resume_builder.py lines 288-302): strip
the line; a non-marker line ending in a colon becomes a bold sub-heading,
another non-empty non-marker line is kept verbatim, and a marker line is
kept with markers and surrounding whitespace stripped — but only when
something remains. -/
def classifyLine (rawLine : List Char) : List String :=
  let line := pyStripChars rawLine
  if line ≠ [] ∧ startsWithMarker line = false then
    if endsWithColon line then ["<strong>" ++ String.mk line ++ "</strong>"]
    else [String.mk line]
  else if line ≠ [] then
    let cleaned := pyStripChars (line.dropWhile (fun c => c == '•' || c == '-'))
    if cleaned ≠ [] then [String.mk cleaned] else []
  else []

/-- The bullet derivation of resume_builder.py lines 286-305: with a bullet
marker or hyphen anywhere in the text, split on line breaks and classify
each line; otherwise the whole text is one bullet item. -/
def derive_bullet_points (responsibilities : String) : List String :=
  if containsChar '•' responsibilities.data || containsChar '-' responsibilities.data then
    ((splitLines responsibilities.data).map classifyLine).flatten
  else [responsibilities]

/-- The achievements insertion loop of resume_builder.py lines 307-311:
each achievement is inserted at position 0 unless an equal string is
already in the list. -/
def add_achievements (achievements : List String) (bullet_points : List String) :
    List String :=
  achievements.foldl (fun bs a => if a ∈ bs then bs else a :: bs) bullet_points

/-- The bullet list assembled for one experience entry by
`ResumeBuilder._build_experience_section`. -/
def experience_bullet_points (exp : ExperienceModel) : List String :=
  add_achievements exp.achievements (derive_bullet_points exp.responsibilities)

/-- The claim's description of the final list shape: the achievements that
are not already present (checking against the evolving list, so also
against earlier accepted achievements). -/
def newAchievements : List String → List String → List String
  | [], _ => []
  | a :: rest, seen =>
    if a ∈ seen then newAchievements rest seen
    else a :: newAchievements rest (a :: seen)

/-- The fold of `add_achievements` is exactly: non-duplicate achievements
reversed, prepended to the existing bullets. -/
theorem add_achievements_eq (achievements bullet_points : List String) :
    add_achievements achievements bullet_points =
      (newAchievements achievements bullet_points).reverse ++ bullet_points := by
  induction achievements generalizing bullet_points with
  | nil => simp [add_achievements, newAchievements]
  | cons a rest ih =>
    by_cases h : a ∈ bullet_points
    · simp only [add_achievements, List.foldl_cons, if_pos h, newAchievements]
      exact ih bullet_points
    · simp only [add_achievements, List.foldl_cons, if_neg h, newAchievements]
      rw [show List.foldl (fun bs a => if a ∈ bs then bs else a :: bs) (a :: bullet_points) rest =
        add_achievements rest (a :: bullet_points) from rfl, ih (a :: bullet_points)]
      simp

/- ================================================================
   C5: achievements prepended with string-equality dedup
   ================================================================ -/

/-- C5: each achievement is inserted at the front of the derived bullet
list in given order unless a string-equal bullet already exists (checked
against the evolving list), so the final order is the non-duplicate
achievements reversed followed by the responsibility bullets; concretely,
responsibilities `"- Did X\n- Did Y"` with achievements `["Did Z"]` yield
`[Did Z, Did X, Did Y]`. -/
theorem c5_achievements_prepend_order :
    (∀ exp : ExperienceModel,
      experience_bullet_points exp =
        (newAchievements exp.achievements
            (derive_bullet_points exp.responsibilities)).reverse ++
          derive_bullet_points exp.responsibilities) ∧
    experience_bullet_points
        { company := "Acme", role := "Dev", start_date := "2020", end_date := "2021",
          responsibilities := "- Did X\n- Did Y", achievements := ["Did Z"] } =
      ["Did Z", "Did X", "Did Y"] := by
  constructor
  · intro exp
    exact add_achievements_eq exp.achievements (derive_bullet_points exp.responsibilities)
  · decide

/- ================================================================
   C6: per-line bullet classification (corrected)
   ================================================================ -/

/-- The per-line rule exactly as claim C6 states it: a marker line always
becomes a bullet with the marker stripped (even when nothing remains), a
non-marker line ending in a colon becomes a bold sub-heading, any other
non-empty non-marker line a verbatim bullet. -/
def claimedLineRuleStrict (rawLine : List Char) : List String :=
  let line := pyStripChars rawLine
  if startsWithMarker line then
    [String.mk (pyStripChars (line.dropWhile (fun c => c == '•' || c == '-')))]
  else if endsWithColon line ∧ line ≠ [] then
    ["<strong>" ++ String.mk line ++ "</strong>"]
  else if line ≠ [] then [String.mk line]
  else []

/-- Bullet derivation as claim C6 literally states it. -/
def claimed_bullet_derivation_strict (responsibilities : String) : List String :=
  if containsChar '•' responsibilities.data || containsChar '-' responsibilities.data then
    ((splitLines responsibilities.data).map claimedLineRuleStrict).flatten
  else [responsibilities]

/-- The per-line rule with the single amendment forced by the code: a
marker line whose content is empty after stripping markers and whitespace
is dropped instead of becoming an empty bullet. -/
def claimedLineRule (rawLine : List Char) : List String :=
  let line := pyStripChars rawLine
  if startsWithMarker line then
    let cleaned := pyStripChars (line.dropWhile (fun c => c == '•' || c == '-'))
    if cleaned ≠ [] then [String.mk cleaned] else []
  else if endsWithColon line ∧ line ≠ [] then
    ["<strong>" ++ String.mk line ++ "</strong>"]
  else if line ≠ [] then [String.mk line]
  else []

/-- Bullet derivation as amended claim C6 states it. -/
def claimed_bullet_derivation (responsibilities : String) : List String :=
  if containsChar '•' responsibilities.data || containsChar '-' responsibilities.data then
    ((splitLines responsibilities.data).map claimedLineRule).flatten
  else [responsibilities]

/-- C6 counterexample: the text `"-"` contains a hyphen, so it is split and
its single line is a marker line; the claim as stated predicts one bullet
(the empty string left after stripping the marker), but the code drops the
empty remainder and derives no bullet at all. -/
theorem c6_counterexample :
    derive_bullet_points "-" = [] ∧
    claimed_bullet_derivation_strict "-" = [""] := by
  constructor <;> decide

/-- Stripping the empty line yields the empty line. -/
theorem pyStripChars_nil : pyStripChars [] = [] := rfl

/-- The code's per-line loop body agrees with the amended per-line rule. -/
theorem classifyLine_eq_claimedLineRule (rawLine : List Char) :
    classifyLine rawLine = claimedLineRule rawLine := by
  unfold classifyLine claimedLineRule
  by_cases hne : pyStripChars rawLine = [] <;>
    by_cases hm : startsWithMarker (pyStripChars rawLine) = true <;>
    by_cases hc : endsWithColon (pyStripChars rawLine) = true <;>
    simp_all [pyStripChars_nil]

/-- C6 amended: bullet derivation behaves per the claim with one
amendment — a marker line is dropped when nothing remains after stripping
markers and whitespace (instead of yielding an empty bullet). -/
theorem c6_bullet_derivation_amended (responsibilities : String) :
    derive_bullet_points responsibilities = claimed_bullet_derivation responsibilities := by
  unfold derive_bullet_points claimed_bullet_derivation
  rw [List.map_congr_left (fun l _ => classifyLine_eq_claimedLineRule l)]

/- ================================================================
   HTML renderer (resume_builder.py, ResumeBuilder)
   ================================================================ -/

/-- Python `str.strip()` on a `String`. -/
def pyStrip (s : String) : String := String.mk (pyStripChars s.data)

/-- `TemplateConfig`: the named bundle of four presentation constants. -/
structure TemplateConfig where
  primary_color : String
  secondary_color : String
  font_family : String
  section_spacing : String
deriving DecidableEq

/-- `ResumeBuilder.TEMPLATES["modern"]`. -/
def modernTemplate : TemplateConfig :=
  { primary_color := "#2563eb"
    secondary_color := "#64748b"
    font_family := "'Segoe UI', Tahoma, Geneva, Verdana, sans-serif"
    section_spacing := "24px" }

/-- `ResumeBuilder.TEMPLATES["classic"]`. -/
def classicTemplate : TemplateConfig :=
  { primary_color := "#1f2937"
    secondary_color := "#4b5563"
    font_family := "Georgia, 'Times New Roman', serif"
    section_spacing := "20px" }

/-- `ResumeBuilder.TEMPLATES["minimal"]`. -/
def minimalTemplate : TemplateConfig :=
  { primary_color := "#000000"
    secondary_color := "#666666"
    font_family := "'Helvetica Neue', Helvetica, Arial, sans-serif"
    section_spacing := "16px" }

/-- `self.TEMPLATES.get(template, self.TEMPLATES["modern"])`. -/
def getTemplate (template : String) : TemplateConfig :=
  if template = "modern" then modernTemplate
  else if template = "classic" then classicTemplate
  else if template = "minimal" then minimalTemplate
  else modernTemplate

/-- `ResumeBuilder._build_header` (resume_builder.py lines 183-228).
Python tests `if personal_info.linkedin:`, which is false both for `None`
and for the empty string. -/
def build_header (personal_info : PersonalInfo) (config : TemplateConfig) : String :=
  let contact_items :=
    ["<span style=\"color: " ++ config.secondary_color ++ ";\">📧 " ++
        personal_info.email ++ "</span>",
     "<span style=\"color: " ++ config.secondary_color ++ ";\">📱 " ++
        personal_info.phone ++ "</span>",
     "<span style=\"color: " ++ config.secondary_color ++ ";\">📍 " ++
        personal_info.location ++ "</span>"] ++
    (match personal_info.linkedin with
     | some l =>
        if l = "" then []
        else ["<span style=\"color: " ++ config.secondary_color ++ ";\">💼 " ++ l ++ "</span>"]
     | none => []) ++
    (match personal_info.portfolio with
     | some p =>
        if p = "" then []
        else ["<span style=\"color: " ++ config.secondary_color ++ ";\">🌐 " ++ p ++ "</span>"]
     | none => [])
  let contact_html := String.intercalate " &nbsp;|&nbsp; " contact_items
  "\n        <!-- Header Section -->\n        <header style=\"text-align: center; margin-bottom: " ++
    config.section_spacing ++ "; padding-bottom: 24px; border-bottom: 2px solid " ++
    config.primary_color ++
    ";\">\n            <h1 style=\"margin: 0 0 12px 0; font-size: 32px; font-weight: 700; color: " ++
    config.primary_color ++ "; letter-spacing: -0.5px;\">\n                " ++
    personal_info.full_name ++
    "\n            </h1>\n            <div style=\"font-size: 14px; color: " ++
    config.secondary_color ++ ";\">\n                " ++ contact_html ++
    "\n            </div>\n        </header>\n        "

/-- `ResumeBuilder._build_summary` (lines 230-242). -/
def build_summary (summary : String) (config : TemplateConfig) : String :=
  "\n        <!-- Summary Section -->\n        <section style=\"margin-bottom: " ++
    config.section_spacing ++
    ";\">\n            <h2 style=\"font-size: 18px; font-weight: 600; color: " ++
    config.primary_color ++
    "; margin: 0 0 12px 0; text-transform: uppercase; letter-spacing: 1px; border-bottom: 1px solid #e5e7eb; padding-bottom: 8px;\">\n                Professional Summary\n            </h2>\n            <p style=\"margin: 0; color: #374151; font-size: 14px; text-align: justify;\">\n                " ++
    summary ++ "\n            </p>\n        </section>\n        "

/-- `ResumeBuilder._build_skills_section` (lines 244-267). -/
def build_skills_section (skills : List String) (config : TemplateConfig) : String :=
  if skills.isEmpty then ""
  else
    let skills_html := String.join (skills.map (fun skill =>
      "\n            <span style=\"display: inline-block; background-color: #f3f4f6; color: #374151; padding: 6px 14px; margin: 4px; border-radius: 4px; font-size: 13px; font-weight: 500;\">\n                " ++
        skill ++ "\n            </span>"))
    "\n        <!-- Skills Section -->\n        <section style=\"margin-bottom: " ++
      config.section_spacing ++
      ";\">\n            <h2 style=\"font-size: 18px; font-weight: 600; color: " ++
      config.primary_color ++
      "; margin: 0 0 12px 0; text-transform: uppercase; letter-spacing: 1px; border-bottom: 1px solid #e5e7eb; padding-bottom: 8px;\">\n                Skills\n            </h2>\n            <div style=\"line-height: 2;\">\n                " ++
      skills_html ++ "\n            </div>\n        </section>\n        "

/-- The bullet-list HTML built from a list of bullet points (the
`for point in bullet_points` loop, lines 313-319 and 382-388). -/
def bullet_points_html (bullet_points : List String) : String :=
  String.join (bullet_points.map (fun point =>
    if pyStrip point ≠ "" then
      "\n                    <li style=\"margin-bottom: 6px; color: #374151; font-size: 14px;\">\n                        " ++
        pyStrip point ++ "\n                    </li>"
    else ""))

/-- One experience item's HTML (shared f-string of lines 321-339 and
390-408), given the already-built bullet list HTML. -/
def experience_item_html (role start_date end_date company : String)
    (achievements_html : String) (config : TemplateConfig) : String :=
  "\n            <!-- Experience Item -->\n            <div style=\"margin-bottom: 20px;\">\n                <div style=\"display: flex; justify-content: space-between; align-items: baseline; margin-bottom: 4px;\">\n                    <h3 style=\"font-size: 16px; font-weight: 600; color: #1f2937; margin: 0;\">\n                        " ++
    role ++
    "\n                    </h3>\n                    <span style=\"font-size: 13px; color: " ++
    config.secondary_color ++ "; font-weight: 500;\">\n                        " ++
    start_date ++ " – " ++ end_date ++
    "\n                    </span>\n                </div>\n                <div style=\"font-size: 14px; font-weight: 600; color: " ++
    config.primary_color ++ "; margin-bottom: 8px;\">\n                    " ++
    company ++
    "\n                </div>\n                <ul style=\"margin: 0; padding-left: 20px;\">\n                    " ++
    achievements_html ++ "\n                </ul>\n            </div>\n            "

/-- The section wrapper shared by both experience section builders (lines
341-349 and 410-418). -/
def experience_section_html (experience_html : String) (config : TemplateConfig) : String :=
  "\n        <!-- Experience Section -->\n        <section style=\"margin-bottom: " ++
    config.section_spacing ++
    ";\">\n            <h2 style=\"font-size: 18px; font-weight: 600; color: " ++
    config.primary_color ++
    "; margin: 0 0 16px 0; text-transform: uppercase; letter-spacing: 1px; border-bottom: 1px solid #e5e7eb; padding-bottom: 8px;\">\n                Work Experience\n            </h2>\n            " ++
    experience_html ++ "\n        </section>\n        "

/-- `ResumeBuilder._build_experience_section` (lines 269-349): optimized
entries, bullets derived from responsibilities then achievements inserted
at the front. -/
def build_experience_section (experience : List ExperienceModel)
    (config : TemplateConfig) : String :=
  if experience.isEmpty then ""
  else
    let experience_html := String.join (experience.map (fun exp =>
      experience_item_html exp.role exp.start_date exp.end_date exp.company
        (bullet_points_html (experience_bullet_points exp)) config))
    experience_section_html experience_html config

/-- `ResumeBuilder._build_experience_section_from_request` (lines 351-418):
request entries, bullets derived from responsibilities only. -/
def build_experience_section_from_request (experience : List ExperienceItem)
    (config : TemplateConfig) : String :=
  if experience.isEmpty then ""
  else
    let experience_html := String.join (experience.map (fun exp =>
      experience_item_html exp.role exp.start_date exp.end_date exp.company
        (bullet_points_html (derive_bullet_points exp.responsibilities)) config))
    experience_section_html experience_html config

/-- One education item's HTML (shared f-string of lines 429-445 and
466-482). -/
def education_item_html (degree institution year : String)
    (config : TemplateConfig) : String :=
  "\n            <div style=\"margin-bottom: 12px;\">\n                <div style=\"display: flex; justify-content: space-between; align-items: baseline;\">\n                    <div>\n                        <span style=\"font-size: 15px; font-weight: 600; color: #1f2937;\">\n                            " ++
    degree ++
    "\n                        </span>\n                        <span style=\"color: " ++
    config.secondary_color ++ "; font-size: 14px; margin-left: 8px;\">\n                            | " ++
    institution ++
    "\n                        </span>\n                    </div>\n                    <span style=\"font-size: 13px; color: " ++
    config.secondary_color ++ "; font-weight: 500;\">\n                        " ++
    year ++
    "\n                    </span>\n                </div>\n            </div>\n            "

/-- The education section wrapper (lines 447-455 and 484-492). -/
def education_section_html (education_html : String) (config : TemplateConfig) : String :=
  "\n        <!-- Education Section -->\n        <section style=\"margin-bottom: " ++
    config.section_spacing ++
    ";\">\n            <h2 style=\"font-size: 18px; font-weight: 600; color: " ++
    config.primary_color ++
    "; margin: 0 0 12px 0; text-transform: uppercase; letter-spacing: 1px; border-bottom: 1px solid #e5e7eb; padding-bottom: 8px;\">\n                Education\n            </h2>\n            " ++
    education_html ++ "\n        </section>\n        "

/-- `ResumeBuilder._build_education_section_from_request` (lines 457-492). -/
def build_education_section_from_request (education : List EducationItem)
    (config : TemplateConfig) : String :=
  if education.isEmpty then ""
  else
    education_section_html
      (String.join (education.map (fun edu =>
        education_item_html edu.degree edu.institution edu.year config)))
      config

/-- `ResumeBuilder._build_education_section` (lines 420-455). -/
def build_education_section (education : List EducationModel)
    (config : TemplateConfig) : String :=
  if education.isEmpty then ""
  else
    education_section_html
      (String.join (education.map (fun edu =>
        education_item_html edu.degree edu.institution edu.year config)))
      config

/-- The document shell shared by `_generate_html_from_request` (lines
103-144) and `_generate_html` (lines 146-181). -/
def html_document (full_name : String) (config : TemplateConfig)
    (header summary_html skills_html experience_html education_html : String) : String :=
  "<!DOCTYPE html>\n<html lang=\"en\">\n<head>\n    <meta charset=\"UTF-8\">\n    <meta name=\"viewport\" content=\"width=device-width, initial-scale=1.0\">\n    <title>" ++
    full_name ++
    " - Resume</title>\n</head>\n<body style=\"margin: 0; padding: 40px; background-color: #ffffff; font-family: " ++
    config.font_family ++
    "; color: #1f2937; line-height: 1.6;\">\n    <div style=\"max-width: 800px; margin: 0 auto;\">\n        " ++
    header ++ "\n        " ++ summary_html ++ "\n        " ++ skills_html ++ "\n        " ++
    experience_html ++ "\n        " ++ education_html ++
    "\n    </div>\n</body>\n</html>"

/-- `ResumeBuilder._generate_html_from_request`. -/
def generate_html_from_request (personal_info : PersonalInfo) (summary : String)
    (skills : List String) (experience : List ExperienceItem)
    (education : List EducationItem) (config : TemplateConfig) : String :=
  html_document personal_info.full_name config
    (build_header personal_info config)
    (build_summary summary config)
    (build_skills_section skills config)
    (build_experience_section_from_request experience config)
    (build_education_section_from_request education config)

/-- `ResumeBuilder.build_resume_from_request` (lines 40-74): template
lookup with silent fallback to `"modern"`, then HTML generation. -/
def build_resume_from_request (personal_info : PersonalInfo) (summary : String)
    (skills : List String) (experience : List ExperienceItem)
    (education : List EducationItem) (template : String) : String :=
  generate_html_from_request personal_info summary skills experience education
    (getTemplate template)

/- ================================================================
   C7: unknown template name falls back to "modern"
   ================================================================ -/

/-- C7: rendering with any unrecognized template name yields output
identical to rendering with `"modern"`; the unknown name is not an error. -/
theorem c7_unknown_template_is_modern (personal_info : PersonalInfo)
    (summary : String) (skills : List String) (experience : List ExperienceItem)
    (education : List EducationItem) (name : String)
    (h : name ∉ ["modern", "classic", "minimal"]) :
    build_resume_from_request personal_info summary skills experience education name =
      build_resume_from_request personal_info summary skills experience education "modern" := by
  simp only [List.mem_cons, List.mem_singleton, not_or] at h
  obtain ⟨h1, h2, h3⟩ := h
  unfold build_resume_from_request
  congr 1
  simp [getTemplate, h1, h2, h3]

/-- Witness for C7 at a concrete resume and the template name `"unknown"`. -/
theorem c7_witness :
    ("unknown" : String) ∉ ["modern", "classic", "minimal"] ∧
    build_resume_from_request
        { full_name := "A B", email := "a@b.c", phone := "1", location := "L" }
        "Sum" ["Skill"]
        [{ company := "C", role := "R", start_date := "2020", end_date := "2021",
           responsibilities := "- x" }]
        [{ degree := "BS", institution := "U", year := "2019" }] "unknown" =
      build_resume_from_request
        { full_name := "A B", email := "a@b.c", phone := "1", location := "L" }
        "Sum" ["Skill"]
        [{ company := "C", role := "R", start_date := "2020", end_date := "2021",
           responsibilities := "- x" }]
        [{ degree := "BS", institution := "U", year := "2019" }] "modern" :=
  ⟨by decide,
    c7_unknown_template_is_modern
      { full_name := "A B", email := "a@b.c", phone := "1", location := "L" }
      "Sum" ["Skill"]
      [{ company := "C", role := "R", start_date := "2020", end_date := "2021",
         responsibilities := "- x" }]
      [{ degree := "BS", institution := "U", year := "2019" }] "unknown" (by decide)⟩

/- ================================================================
   Generate-resume endpoint (routers/resume.py, generate_resume)
   ================================================================ -/

/-- `OptimizedExperienceItem` (response schema). -/
structure OptimizedExperienceItem where
  company : String
  role : String
  start_date : String
  end_date : String
  responsibilities : String
  achievements : List String := []
deriving DecidableEq

/-- `OptimizedEducationItem` (response schema). -/
structure OptimizedEducationItem where
  degree : String
  institution : String
  year : String
deriving DecidableEq

/-- `ResumeResponse` (response schema). -/
structure ResumeResponse where
  optimized_summary : String
  optimized_experience : List OptimizedExperienceItem
  optimized_education : List OptimizedEducationItem
  optimized_skills : List String
  resume_html : String
  pdf_download_url : String
deriving DecidableEq

/-- `PDFService.get_download_url`. -/
def get_download_url (filename : String) : String :=
  "/api/resume/download/" ++ filename

/-- The `generate_resume` endpoint handler (routers/resume.py lines
38-133) on its success path: it renders the HTML directly from the request
data, names the PDF from the sanitized candidate name (the random uuid
token used on an empty sanitization result is the `uuidToken` parameter,
and the PDF byte output itself is an external effect outside this model),
and echoes the request fields back as the "optimized" response.  The
handler never constructs or calls `AIService`. -/
def generate_resume (uuidToken : String) (request : ResumeRequest) : ResumeResponse :=
  let html_content := build_resume_from_request request.personal_info request.summary
    request.skills request.experience request.education request.template
  let pdf_filename := sanitize_filename uuidToken request.personal_info.full_name ++
    "_resume.pdf"
  { optimized_summary := request.summary
    optimized_experience := request.experience.map (fun exp =>
      { company := exp.company
        role := exp.role
        start_date := exp.start_date
        end_date := exp.end_date
        responsibilities := exp.responsibilities
        achievements := [] })
    optimized_education := request.education.map (fun edu =>
      { degree := edu.degree
        institution := edu.institution
        year := edu.year })
    optimized_skills := request.skills
    resume_html := html_content
    pdf_download_url := get_download_url pdf_filename }

/- ================================================================
   C9: the endpoint echoes the request and never calls the AI service
   ================================================================ -/

/-- C9: for every request, the generate-resume endpoint returns a response
whose optimized fields echo the request unchanged — summary and skills
verbatim, experience entries in order with empty achievements, education
entries in order.  (The handler contains no call of the AI optimization
service; its response is a pure function of the request.) -/
theorem c9_endpoint_echoes_request (uuidToken : String) (request : ResumeRequest) :
    (generate_resume uuidToken request).optimized_summary = request.summary ∧
    (generate_resume uuidToken request).optimized_skills = request.skills ∧
    (generate_resume uuidToken request).optimized_experience =
      request.experience.map (fun exp =>
        { company := exp.company
          role := exp.role
          start_date := exp.start_date
          end_date := exp.end_date
          responsibilities := exp.responsibilities
          achievements := [] }) ∧
    (generate_resume uuidToken request).optimized_education =
      request.education.map (fun edu =>
        { degree := edu.degree
          institution := edu.institution
          year := edu.year }) :=
  ⟨rfl, rfl, rfl, rfl⟩

/- ================================================================
   Markdown fence cleanup
   (ai_service.py, AIService._extract_json_from_response lines 371-393)
   ================================================================ -/

/-- One scanning step per fuel unit of
`re.sub(r"^MARK\s*", "", content, flags=re.MULTILINE)`:
positions are scanned left to right over the current string;
`atLineStart` records whether the position is the string start or preceded
by a newline ( `^` with `re.MULTILINE`); at a match the mark and the
following maximal whitespace run (`\s*`, which can swallow newlines and
hence whole blank lines) are deleted and scanning resumes after them, the
line-start flag rederived from the last deleted character.  Fuel
`cs.length` suffices because every step consumes at least one character. -/
def subLineStartMarkAux (mark : List Char) : Nat → Bool → List Char → List Char
  | 0, _, cs => cs
  | fuel + 1, atLineStart, cs =>
    if atLineStart = true ∧ mark <+: cs then
      let tailPart := cs.drop mark.length
      subLineStartMarkAux mark fuel
        ((tailPart.takeWhile isPySpace).getLast? == some '\n')
        (tailPart.dropWhile isPySpace)
    else
      match cs with
      | [] => []
      | c :: rest => c :: subLineStartMarkAux mark fuel (c == '\n') rest

/-- `re.sub(r"^MARK\s*", "", content, flags=re.MULTILINE)`. -/
def subLineStartMark (mark : List Char) (cs : List Char) : List Char :=
  subLineStartMarkAux mark cs.length true cs

/-- One scanning step per fuel unit of
`re.sub(r"```$", "", content, flags=re.MULTILINE)`: a ``` is deleted when
followed by a newline or the end of the string (`$` with `re.MULTILINE`),
and scanning resumes right after it; otherwise one character is emitted. -/
def subLineEndFenceAux : Nat → List Char → List Char
  | 0, cs => cs
  | fuel + 1, cs =>
    match cs with
    | [] => []
    | c :: rest =>
      if c = '`' ∧ rest.take 2 = ['`', '`'] ∧
          (rest.drop 2 = [] ∨ (rest.drop 2).head? = some '\n') then
        subLineEndFenceAux fuel (rest.drop 2)
      else c :: subLineEndFenceAux fuel rest

/-- `re.sub(r"```$", "", content, flags=re.MULTILINE)`. -/
def subLineEndFence (cs : List Char) : List Char :=
  subLineEndFenceAux cs.length cs

/-- The pattern of the first substitution. -/
def jsonFenceMark : List Char := "```json".data

/-- The pattern of the second substitution. -/
def fenceMark : List Char := "```".data

/-- The fence-stripping portion of `AIService._extract_json_from_response`
(lines 385-388): three MULTILINE substitutions, then `content.strip()`.
The subsequent `json.loads` parse is outside this model. -/
def extract_json_cleanup (content : String) : String :=
  String.mk (pyStripChars
    (subLineEndFence (subLineStartMark fenceMark
      (subLineStartMark jsonFenceMark content.data))))

/-- The line-start flag after scanning past a deleted-and-kept block: the
last character scanned decides, the incoming flag only when the block is
empty. -/
def afterLineFlag (b : Bool) (cs : List Char) : Bool :=
  match cs.getLast? with
  | some c => c == '\n'
  | none => b

/-- `afterLineFlag` peels one scanned character. -/
theorem afterLineFlag_cons (b : Bool) (c : Char) (t : List Char) :
    afterLineFlag b (c :: t) = afterLineFlag (c == '\n') t := by
  cases t with
  | nil => rfl
  | cons d t' =>
    unfold afterLineFlag
    rw [List.getLast?_cons_cons]
    cases hgl : (d :: t').getLast? with
    | some x => rfl
    | none => simp [List.getLast?_eq_none_iff] at hgl

/-- A line-start substitution whose pattern starts with a backtick leaves a
backtick-free string unchanged. -/
theorem subLineStartMarkAux_no_match (mark : List Char) (hm : mark.head? = some '`')
    (fuel : Nat) : ∀ (b : Bool) (cs : List Char), '`' ∉ cs →
      subLineStartMarkAux mark fuel b cs = cs := by
  induction fuel with
  | zero => intro b cs _; rfl
  | succ fuel ih =>
    intro b cs h
    have hpre : ¬(b = true ∧ mark <+: cs) := by
      rintro ⟨-, s, hs⟩
      apply h
      cases mark with
      | nil => simp at hm
      | cons m ms =>
        have hm' : m = '`' := by simpa using hm
        rw [← hs, hm']
        simp
    cases cs with
    | nil => simp only [subLineStartMarkAux, if_neg hpre]
    | cons c rest =>
      simp only [subLineStartMarkAux, if_neg hpre]
      rw [ih (c == '\n') rest (fun hr => h (List.mem_cons_of_mem c hr))]

/-- Scanning a backtick-free block (with a backtick-leading pattern) copies
the block and continues with the line-start flag its last character leaves. -/
theorem subLineStartMarkAux_append (mark : List Char) (hm : mark.head? = some '`')
    (ys : List Char) (k : Nat) :
    ∀ (cs : List Char) (b : Bool), '`' ∉ cs →
      subLineStartMarkAux mark (cs.length + k) b (cs ++ ys) =
        cs ++ subLineStartMarkAux mark k (afterLineFlag b cs) ys := by
  intro cs
  induction cs with
  | nil => intro b _; simp [afterLineFlag]
  | cons c t ih =>
    intro b h
    have hpre : ¬(b = true ∧ mark <+: c :: (t ++ ys)) := by
      rintro ⟨-, s, hs⟩
      apply h
      cases mark with
      | nil => simp at hm
      | cons m ms =>
        have hm' : m = '`' := by simpa using hm
        have : m = c := by
          have := congrArg List.head? hs
          simpa using this
        simp [← this, hm']
    rw [show (c :: t).length + k = (t.length + k) + 1 by
      simp only [List.length_cons]; omega]
    rw [List.cons_append]
    simp only [subLineStartMarkAux, if_neg hpre]
    rw [ih (c == '\n') (fun hr => h (List.mem_cons_of_mem c hr))]
    rw [afterLineFlag_cons]
    rfl

/-- The line-end substitution leaves a backtick-free string unchanged. -/
theorem subLineEndFenceAux_no_backtick (fuel : Nat) :
    ∀ cs : List Char, '`' ∉ cs → subLineEndFenceAux fuel cs = cs := by
  induction fuel with
  | zero => intro cs _; rfl
  | succ fuel ih =>
    intro cs h
    cases cs with
    | nil => rfl
    | cons c rest =>
      have hc : ¬(c = '`' ∧ rest.take 2 = ['`', '`'] ∧
          (rest.drop 2 = [] ∨ (rest.drop 2).head? = some '\n')) := by
        rintro ⟨rfl, -, -⟩
        exact h (List.mem_cons_self _ _)
      simp only [subLineEndFenceAux, if_neg hc]
      rw [ih rest (fun hr => h (List.mem_cons_of_mem c hr))]

/-- One-step unfolding of the scanner (kept as a lemma so rewriting never
unfolds more than one step at a time). -/
theorem subLineStartMarkAux_succ (mark : List Char) (fuel : Nat) (b : Bool) (cs : List Char) :
    subLineStartMarkAux mark (fuel + 1) b cs =
      if b = true ∧ mark <+: cs then
        subLineStartMarkAux mark fuel
          (((cs.drop mark.length).takeWhile isPySpace).getLast? == some '\n')
          ((cs.drop mark.length).dropWhile isPySpace)
      else
        match cs with
        | [] => []
        | c :: rest => c :: subLineStartMarkAux mark fuel (c == '\n') rest := rfl

/-- C4 amended: the three substitutions run with `re.MULTILINE`, so fence
markers are removed at the start and end of every line of the text, not
only of its first and last line (followed by a surrounding-whitespace
strip).  In particular a response wrapped as ```` ```json\n<body>\n``` ````
whose body `c :: t` is backtick-free and starts and ends with
non-whitespace characters cleans to exactly the body. -/
theorem c4_amended (c : Char) (t : List Char)
    (hb : '`' ∉ c :: t) (hh : isPySpace c = false)
    (hl : ∀ d, (c :: t).getLast? = some d → isPySpace d = false) :
    extract_json_cleanup (String.mk ("```json\n".data ++ (c :: t) ++ "\n```".data)) =
      String.mk (c :: t) := by
  have hjfm : jsonFenceMark.head? = some '`' := rfl
  have hfm : fenceMark.head? = some '`' := rfl
  obtain ⟨d, hd⟩ : ∃ d, (c :: t).getLast? = some d := by
    cases hgl : (c :: t).getLast? with
    | some d => exact ⟨d, rfl⟩
    | none => simp [List.getLast?_eq_none_iff] at hgl
  have hdns : isPySpace d = false := hl d hd
  have hdnn : (d == '\n') = false := by
    rw [beq_eq_false_iff_ne]
    intro hde
    rw [hde] at hdns
    simp [isPySpace] at hdns
  have hafter : ∀ b : Bool, afterLineFlag b (c :: t) = false := by
    intro b; unfold afterLineFlag; rw [hd]; exact hdnn
  have hbt : '`' ∉ (c :: t) ++ ['\n'] := by
    intro hmem
    rcases List.mem_append.mp hmem with hmem | hmem
    · exact hb hmem
    · simp at hmem
  have hjl : jsonFenceMark.length = 7 := by decide
  have htl : ("\n```".data).length = 4 := by decide
  have hLeq : "```json\n".data ++ (c :: t) ++ "\n```".data
      = jsonFenceMark ++ ('\n' :: ((c :: t) ++ "\n```".data)) := by
    rw [show "```json\n".data = jsonFenceMark ++ ['\n'] from by decide]
    simp [List.append_assoc]
  have hLlen : ("```json\n".data ++ (c :: t) ++ "\n```".data).length
      = ((c :: t).length + 11) + 1 := by
    rw [hLeq, List.length_append, List.length_cons, List.length_append, hjl, htl]
    omega
  have hflag : ((('\n' :: ((c :: t) ++ "\n```".data)).takeWhile isPySpace).getLast?
      == some '\n') = true := by
    rw [List.takeWhile_cons]
    simp only [show isPySpace '\n' = true from rfl, if_true, List.cons_append,
      List.takeWhile_cons, hh, Bool.false_eq_true, if_false]
    rfl
  have harg : ('\n' :: ((c :: t) ++ "\n```".data)).dropWhile isPySpace
      = (c :: t) ++ "\n```".data := by
    rw [List.dropWhile_cons]
    simp only [show isPySpace '\n' = true from rfl, if_true, List.cons_append,
      List.dropWhile_cons, hh, Bool.false_eq_true, if_false]
  have step1 : subLineStartMarkAux jsonFenceMark (((c :: t).length + 11) + 1) true
        ("```json\n".data ++ (c :: t) ++ "\n```".data)
      = subLineStartMarkAux jsonFenceMark ((c :: t).length + 11) true
        ((c :: t) ++ "\n```".data) := by
    rw [hLeq]
    have hpre : (true = true ∧ jsonFenceMark <+:
        jsonFenceMark ++ ('\n' :: ((c :: t) ++ "\n```".data))) :=
      ⟨rfl, List.prefix_append _ _⟩
    rw [subLineStartMarkAux_succ, if_pos hpre, List.drop_left, hflag, harg]
  have step2 : subLineStartMarkAux jsonFenceMark ((c :: t).length + 11) true
        ((c :: t) ++ "\n```".data)
      = (c :: t) ++ subLineStartMarkAux jsonFenceMark 11 false "\n```".data := by
    rw [subLineStartMarkAux_append jsonFenceMark hjfm "\n```".data 11 (c :: t) true hb,
      hafter]
  have step3 : subLineStartMarkAux jsonFenceMark 11 false "\n```".data
      = "\n```".data := by decide
  have hp1 : subLineStartMark jsonFenceMark
        ("```json\n".data ++ (c :: t) ++ "\n```".data)
      = (c :: t) ++ "\n```".data := by
    unfold subLineStartMark
    rw [hLlen, step1, step2, step3]
  have hp2 : subLineStartMark fenceMark ((c :: t) ++ "\n```".data)
      = (c :: t) ++ ['\n'] := by
    unfold subLineStartMark
    have hlen2 : ((c :: t) ++ "\n```".data).length = (c :: t).length + 4 := by
      rw [List.length_append, htl]
    rw [hlen2, subLineStartMarkAux_append fenceMark hfm "\n```".data 4 (c :: t) true hb,
      hafter]
    congr 1
  have hp3 : subLineEndFence ((c :: t) ++ ['\n']) = (c :: t) ++ ['\n'] := by
    unfold subLineEndFence
    exact subLineEndFenceAux_no_backtick _ _ hbt
  have hstrip : pyStripChars ((c :: t) ++ ['\n']) = c :: t := by
    unfold pyStripChars
    rw [List.cons_append, List.dropWhile_cons]
    simp only [hh, Bool.false_eq_true, if_false]
    rw [← List.cons_append, List.reverse_append]
    simp only [List.reverse_cons, List.reverse_nil, List.nil_append, List.singleton_append,
      List.dropWhile_cons, show isPySpace '\n' = true from rfl, if_true]
    rw [← List.reverse_cons]
    cases hrev : (c :: t).reverse with
    | nil => simp at hrev
    | cons r rs =>
      have hr : r = d := by
        have := List.head?_reverse (c :: t)
        rw [hrev, hd] at this
        simpa using this
      subst hr
      rw [List.dropWhile_cons]
      simp only [hdns, Bool.false_eq_true, if_false]
      rw [← hrev, List.reverse_reverse]
  show String.mk (pyStripChars (subLineEndFence (subLineStartMark fenceMark
      (subLineStartMark jsonFenceMark
        ("```json\n".data ++ (c :: t) ++ "\n```".data))))) = String.mk (c :: t)
  rw [hp1, hp2, hp3, hstrip]

/-- C4 counterexample: the claim says fence-like lines in the interior of
the text are not removed, but `re.sub` with `re.MULTILINE` removes them at
every line: `"a\n```\nb"` has no leading or trailing fence line, yet the
cleanup deletes the interior one. -/
theorem c4_counterexample :
    extract_json_cleanup "a\n```\nb" = "a\nb" ∧
    extract_json_cleanup "a\n```\nb" ≠ "a\n```\nb" := by
  constructor <;> decide

/-- Witness for C4 amended at the one-character body `"x"`. -/
theorem c4_amended_witness :
    ('`' ∉ ['x']) ∧
    extract_json_cleanup (String.mk ("```json\n".data ++ ['x'] ++ "\n```".data)) =
      String.mk ['x'] :=
  ⟨by decide,
    c4_amended 'x' [] (by decide) rfl
      (fun d hd => by
        simp only [List.getLast?_singleton] at hd
        cases hd
        rfl)⟩

/- ================================================================
   Prompt builder (ai_service.py, AIService._build_optimization_prompt)
   ================================================================ -/

/-- `job_context` (ai_service.py lines 105-110): empty for a falsy job
description, otherwise the TARGET JOB DESCRIPTION block. -/
def job_context (job_description : String) : String :=
  if job_description = "" then ""
  else "\nTARGET JOB DESCRIPTION:\n" ++ job_description ++ "\n"

/-- One block of `experience_context` (lines 112-120); `i` is the 1-based
ordinal from `enumerate(request.experience, 1)`. -/
def experience_block (i : Nat) (exp : ExperienceItem) : String :=
  "\nEXPERIENCE " ++ toString i ++ ":\nCompany: " ++ exp.company ++ "\nRole: " ++
    exp.role ++ "\nPeriod: " ++ exp.start_date ++ " - " ++ exp.end_date ++
    "\nResponsibilities: " ++ exp.responsibilities ++ "\n"

/-- `experience_context` (lines 112-120). -/
def experience_context (experience : List ExperienceItem) : String :=
  String.join (experience.enum.map (fun p => experience_block (p.1 + 1) p.2))

/-- One line of `education_context` (lines 122-126). -/
def education_block (edu : EducationItem) : String :=
  "\n- " ++ edu.degree ++ ", " ++ edu.institution ++ ", " ++ edu.year ++ "\n"

/-- `education_context` (lines 122-126). -/
def education_context (education : List EducationItem) : String :=
  String.join (education.map education_block)

/-- `skills_context` (line 128). -/
def skills_context (skills : List String) : String :=
  if skills = [] then "Not provided" else String.intercalate ", " skills

/-- The fixed prompt text before the job-context block (lines 130-133). -/
def prompt_intro : String :=
  "\nYou are an expert resume writer and career coach with 15+ years of experience.\nYour task is to optimize a resume to make it highly effective, ATS-friendly, and compelling to hiring managers.\n\n"

/-- Line 143: the optional LinkedIn line; Python truthiness makes both
`None` and the empty string produce an empty piece. -/
def linkedin_line : Option String → String
  | some l => if l = "" then "" else "- LinkedIn: " ++ l
  | none => ""

/-- Line 144: the optional portfolio line. -/
def portfolio_line : Option String → String
  | some p => if p = "" then "" else "- Portfolio: " ++ p
  | none => ""

/-- The prompt text between the job-context block and the summary
(lines 136-147). -/
def prompt_personal (pi : PersonalInfo) : String :=
  "\n\nCANDIDATE INFORMATION:\n\nPERSONAL DETAILS:\n- Name: " ++ pi.full_name ++
  "\n- Email: " ++ pi.email ++ "\n- Phone: " ++ pi.phone ++ "\n- Location: " ++
  pi.location ++ "\n" ++ linkedin_line pi.linkedin ++ "\n" ++
  portfolio_line pi.portfolio ++ "\n\nCURRENT SUMMARY:\n"

/-- The fixed optimization-requirements and response-format text closing
the prompt (lines 156-217); literal braces are written with hex escapes,
and the mojibake in the source ("clich&Atilde;&copy;s") is reproduced
byte-for-byte with unicode escapes. -/
def prompt_tail_text : String :=
  "\n\n---\n\nOPTIMIZATION REQUIREMENTS:\n\n1. PROFESSIONAL SUMMARY:\n   - Rewrite to be impactful, concise, and tailored to the target role\n   - Include relevant keywords from the job description\n   - Highlight unique value proposition\n   - Keep it 3-5 lines maximum\n\n2. WORK EXPERIENCE:\n   - Rewrite each role using action verbs and the STAR method\n   - Quantify achievements with specific metrics (%, $, numbers)\n   - Focus on impact and results, not just responsibilities\n   - Include 3-5 bullet points per role with measurable outcomes\n   - Optimize for ATS keywords relevant to the target job\n\n3. SKILLS OPTIMIZATION:\n   - Reorganize skills into logical categories\n   - Add relevant keywords from job description that match candidate's background\n   - Remove redundant or outdated skills\n   - Prioritize in-demand technical and soft skills\n\n4. ATS OPTIMIZATION:\n   - Extract and incorporate relevant keywords from the job description\n   - Use standard job titles and industry terminology\n   - Ensure proper keyword density without keyword stuffing\n\n5. GENERAL IMPROVEMENTS:\n   - Fix any grammar, spelling, or clarity issues\n   - Maintain professional tone throughout\n   - Ensure consistency in formatting and style\n   - Remove clichÃ©s and generic phrases\n\n---\n\nRESPONSE FORMAT:\nReturn ONLY valid JSON in this exact structure (no markdown, no explanations):\n\n\x7b\n    \"optimized_summary\": \"The rewritten professional summary\",\n    \"optimized_experience\": [\n        \x7b\n            \"company\": \"Company Name\",\n            \"role\": \"Job Title\",\n            \"start_date\": \"Start Date\",\n            \"end_date\": \"End Date\",\n            \"responsibilities\": \"Rewritten responsibilities and achievements as bullet points with metrics\",\n            \"achievements\": [\"Achievement 1 with metric\", \"Achievement 2 with metric\", \"Achievement 3 with metric\"]\n        \x7d\n    ],\n    \"optimized_education\": [\n        \x7b\n            \"degree\": \"Degree Name\",\n            \"institution\": \"Institution Name\",\n            \"year\": \"Year\"\n        \x7d\n    ],\n    \"optimized_skills\": [\"Skill 1\", \"Skill 2\", \"Skill 3\", ...],\n    \"ats_keywords\": [\"keyword1\", \"keyword2\", \"keyword3\", ...]\n\x7d\n"

/-- The prompt text from after the summary to the end (lines 149-217). -/
def prompt_after_summary (request : ResumeRequest) : String :=
  "\n\nSKILLS:\n" ++ skills_context request.skills ++ "\n\nEXPERIENCE:" ++
  experience_context request.experience ++ "\n\nEDUCATION:" ++
  education_context request.education ++ prompt_tail_text

/-- `AIService._build_optimization_prompt` (lines 95-218), assembled in the
f-string's concatenation order. -/
def build_optimization_prompt (request : ResumeRequest) : String :=
  prompt_intro ++ job_context request.job_description ++
  prompt_personal request.personal_info ++ request.summary ++
  prompt_after_summary request

/-- The text whose presence claim C8 is about. -/
def jd_marker : List Char := "TARGET JOB DESCRIPTION".data

/-- Substring occurrence test on character lists. -/
def containsSeq (pat : List Char) : List Char → Bool
  | [] => pat.isPrefixOf []
  | c :: rest => pat.isPrefixOf (c :: rest) || containsSeq pat rest

/-- A prefix occurrence is an occurrence. -/
theorem containsSeq_of_prefix (pat l : List Char) (h : pat <+: l) :
    containsSeq pat l = true := by
  cases l with
  | nil =>
    have hp : pat = [] := List.prefix_nil.mp h
    subst hp; rfl
  | cons c rest =>
    unfold containsSeq
    rw [List.isPrefixOf_iff_prefix.mpr h]
    simp

/-- An occurrence in the tail is an occurrence. -/
theorem containsSeq_cons (pat : List Char) (c : Char) (l : List Char)
    (h : containsSeq pat l = true) : containsSeq pat (c :: l) = true := by
  unfold containsSeq
  rw [h]
  simp

/-- An occurrence survives prepending any block. -/
theorem containsSeq_append_left (pat a l : List Char)
    (h : containsSeq pat l = true) : containsSeq pat (a ++ l) = true := by
  induction a with
  | nil => exact h
  | cons c a' ih => exact containsSeq_cons pat c _ ih

/- ================================================================
   C8: TARGET JOB DESCRIPTION block presence (corrected)
   ================================================================ -/

/-- C8 counterexample: a request with an empty `job_description` whose
summary is the very phrase "TARGET JOB DESCRIPTION" produces a prompt that
does contain the phrase — the prompt interpolates user fields verbatim, so
the claimed "no block for every empty job description" fails. -/
theorem c8_counterexample :
    containsSeq jd_marker (build_optimization_prompt
        { personal_info := { full_name := "A", email := "a@b.c", phone := "1", location := "L" }
          summary := "TARGET JOB DESCRIPTION", skills := [], experience := [], education := []
          job_description := "", template := "modern" }).data = true ∧
    ({ personal_info := { full_name := "A", email := "a@b.c", phone := "1", location := "L" }
       summary := "TARGET JOB DESCRIPTION", skills := [], experience := [], education := []
       job_description := "", template := "modern" } : ResumeRequest).job_description = "" := by
  constructor
  · unfold build_optimization_prompt
    simp only [String.data_append, List.append_assoc]
    apply containsSeq_append_left
    apply containsSeq_append_left
    apply containsSeq_append_left
    exact containsSeq_of_prefix _ _ ⟨_, rfl⟩
  · rfl

/-- C8 amended: the TARGET JOB DESCRIPTION block is present whenever the
job description is non-empty; when it is empty no job-context block is
emitted, so the phrase occurs in the prompt exactly when the job
description is non-empty — provided the prompt built from the request with
the job description cleared does not itself contain the phrase (user
fields are interpolated verbatim and can inject it). -/
theorem c8_amended (request : ResumeRequest)
    (h : containsSeq jd_marker (build_optimization_prompt
        { request with job_description := "" }).data = false) :
    (containsSeq jd_marker (build_optimization_prompt request).data = true ↔
      request.job_description ≠ "") := by
  constructor
  · intro hc hjd
    have hreq : ({ request with job_description := "" } : ResumeRequest) = request := by
      cases request
      simp_all
    rw [hreq, hc] at h
    cases h
  · intro hjd
    unfold build_optimization_prompt
    simp only [String.data_append, List.append_assoc]
    apply containsSeq_append_left
    unfold job_context
    rw [if_neg hjd]
    simp only [String.data_append, List.append_assoc]
    rw [show (['\n', 'T', 'A', 'R', 'G', 'E', 'T', ' ', 'J', 'O', 'B', ' ', 'D', 'E',
        'S', 'C', 'R', 'I', 'P', 'T', 'I', 'O', 'N', ':', '\n'] : List Char)
        = '\n' :: (jd_marker ++ [':', '\n']) from by decide]
    rw [List.cons_append]
    apply containsSeq_cons
    simp only [List.append_assoc]
    exact containsSeq_of_prefix _ _ ⟨_, rfl⟩

set_option maxRecDepth 100000 in
/-- Witness for C8 amended at a concrete request: with a non-empty job
description the prompt contains the phrase; the no-injection hypothesis is
discharged by evaluating the cleared prompt. -/
theorem c8_amended_witness :
    containsSeq jd_marker (build_optimization_prompt
        { personal_info := { full_name := "A", email := "a@b.c", phone := "1", location := "L" }
          summary := "S", skills := [], experience := [], education := []
          job_description := "Great job", template := "modern" }).data = true :=
  (c8_amended
    { personal_info := { full_name := "A", email := "a@b.c", phone := "1", location := "L" }
      summary := "S", skills := [], experience := [], education := []
      job_description := "Great job", template := "modern" }
    (by decide)).mpr (by decide)
